import Mathlib

/-!
Verification development for the FREEDM DGI broker core.

The definitions below are shallow embeddings of the C++ source:
* `src/unnamed/part_000` — the distributed dispatch solver (`DDAAgent`);
* `src/Broker/src/lb/LoadBalanceAccommodatingPMCU.cpp` — the load balancer (`lbAgent`);
* `src/Broker/src/device/CArmAdapter.cpp` — the plug-and-play adapter (`CArmAdapter`);
* `src/Broker/src/CClockSynchronizer.cpp` — the clock synchronizer (`CClockSynchronizer`).

Machine doubles are modelled as exact rationals; the claims under study are
about the algebraic form of the updates, not floating-point rounding.
-/

namespace FreedmSpec

/-! ## Dispatch solver (`DDAAgent`, src/unnamed/part_000)

Per-slot vectors (the C++ arrays `double x[3]`) are modelled as triples of
rationals, written componentwise exactly as the source loops do.
-/

/-- Triple of rationals, the model of a `double[3]` solver array. -/
abbrev Q3 := ℚ × ℚ × ℚ

/-- Source constant `P_max_grid = 20.0`. -/
def P_max_grid : ℚ := 20
/-- Source constant `P_min_grid = 0.0`. -/
def P_min_grid : ℚ := 0
/-- Source constant `P_max_desd = 5.0`. -/
def P_max_desd : ℚ := 5
/-- Source constant `P_min_desd = -5.0`. -/
def P_min_desd : ℚ := -5
/-- Source constant `eta = 0.5`. -/
def eta : ℚ := 1/2
/-- Source constant `rho = 1.5`. -/
def rho : ℚ := 3/2
/-- Source constant `inner_iter = 5`. -/
def inner_iter : ℕ := 5
/-- Source constant `E_init[3] = {1, 1.5, 0.5}`. -/
def E_init : Q3 := (1, 3/2, 1/2)
/-- Source constant `E_full[3] = {5, 10, 5}`. -/
def E_full : Q3 := (5, 10, 5)
/-- Source constant `price_profile[3] = {5.27, 15.599, 15.599}`. -/
def price_profile : Q3 := (527/100, 15599/1000, 15599/1000)
/-- Source constant `delta_time = 15`. -/
def delta_time : ℚ := 15

/-- The C++ conditional `x > 0 ? x : 0` used for the `aug1`/`aug2` terms. -/
def posPart (q : ℚ) : ℚ := if 0 < q then q else 0

/-- Clamp of `m_nextpower[i]` to `[P_min_desd, P_max_desd]`, written as the
source's two `if` tests. -/
def clampDesd (q : ℚ) : ℚ :=
  if P_max_desd < q then P_max_desd else if q < P_min_desd then P_min_desd else q

/-- Clamp of `m_nextpower[i]` to `[P_min_grid, P_max_grid]`, written as the
source's two `if` tests. -/
def clampGrid (q : ℚ) : ℚ :=
  if P_max_grid < q then P_max_grid else if q < P_min_grid then P_min_grid else q

/-- C++ conversion `int temp = <double expr>`: truncation toward zero. -/
def truncQ (q : ℚ) : ℤ := if 0 ≤ q then Int.floor q else Int.ceil q

/-- The `temp > 0 ? temp : 0` projection applied to the (truncated) `int temp`
in the DESD dual update, then stored back into a `double` array. -/
def intPosPart (t : ℤ) : ℚ := ((if 0 < t then t else 0 : ℤ) : ℚ)

/-- `DDAAgent::deltaPLambdaUpdate` (src/unnamed/part_000 lines 461–488).
Arguments are the fields the method reads: `m_iteration`, `m_localratio`,
`m_adjratio`, `m_inideltaP`, `m_inilambda`, `m_adjdeltaP` and the previous
`m_nextdeltaP`.  Returns the new `(m_nextdeltaP, m_nextlambda)`, which the
source then also copies into `(m_inideltaP, m_inilambda)`. -/
def deltaPLambdaUpdate (iteration : ℕ) (localratio adjratio : ℚ)
    (inideltaP inilambda adjdeltaP nextdeltaP : Q3) : Q3 × Q3 :=
  if iteration % inner_iter = 0 then
    ((localratio * inideltaP.1 + adjratio * adjdeltaP.1 + inideltaP.1 - nextdeltaP.1,
      localratio * inideltaP.2.1 + adjratio * adjdeltaP.2.1 + inideltaP.2.1 - nextdeltaP.2.1,
      localratio * inideltaP.2.2 + adjratio * adjdeltaP.2.2 + inideltaP.2.2 - nextdeltaP.2.2),
     (localratio * inilambda.1 + adjratio * adjdeltaP.1 + eta * inideltaP.1,
      localratio * inilambda.2.1 + adjratio * adjdeltaP.2.1 + eta * inideltaP.2.1,
      localratio * inilambda.2.2 + adjratio * adjdeltaP.2.2 + eta * inideltaP.2.2))
  else
    ((inideltaP.1 + inideltaP.1 - nextdeltaP.1,
      inideltaP.2.1 + inideltaP.2.1 - nextdeltaP.2.1,
      inideltaP.2.2 + inideltaP.2.2 - nextdeltaP.2.2),
     (inilambda.1 + eta * inideltaP.1,
      inilambda.2.1 + eta * inideltaP.2.1,
      inilambda.2.2 + eta * inideltaP.2.2))

/-- The `DesdStateMessage` fields read by `DDAAgent::HandleUpdate`. -/
structure DesdStateMessage where
  iteration : ℕ
  symbol : String
  deltaP : Q3
  lambda : Q3
deriving DecidableEq

/-- The `DDAAgent` fields read or written by `HandleUpdate` and its callees.
`adjnum` is an `int` in the source, hence `ℤ` here. -/
structure DDAState where
  iteration : ℕ
  localsymbol : String
  localadj : Finset String
  adjnum : ℤ
  localratio : ℚ
  adjratio : ℚ
  inideltaP : Q3
  inilambda : Q3
  adjdeltaP : Q3
  adjlambda : Q3
  nextdeltaP : Q3
  nextlambda : Q3
  inipower : Q3
  nextpower : Q3
  inimu : Q3
  inixi : Q3
  nextmu : Q3
  nextxi : Q3
  deltaP1 : Q3
  deltaP2 : Q3
deriving DecidableEq

/-- Bookkeeping shared by all three role branches of `HandleUpdate` after the
role-specific work: run `deltaPLambdaUpdate`, copy the results into the `ini`
fields, reset `m_adjnum` to the adjacency size, advance `m_iteration`, and
zero the accumulators `m_adjdeltaP` / `m_adjlambda`. -/
def commitIteration (s : DDAState) : DDAState :=
  let dpl := deltaPLambdaUpdate s.iteration s.localratio s.adjratio
      s.inideltaP s.inilambda s.adjdeltaP s.nextdeltaP
  { s with
    nextdeltaP := dpl.1
    nextlambda := dpl.2
    inideltaP := dpl.1
    inilambda := dpl.2
    adjnum := (s.localadj.card : ℤ)
    iteration := s.iteration + 1
    adjdeltaP := ((0 : ℚ), (0 : ℚ), (0 : ℚ))
    adjlambda := ((0 : ℚ), (0 : ℚ), (0 : ℚ)) }

/-- The DESD role-specific update of `HandleUpdate` (lines 288–347): the
power step with the in-loop suffix sums `summu`/`sumxi`, the clamp, the
residual recomputation with the running prefix sum `sumpower`, and the dual
projection through the source's `int temp`. -/
def desdRoleUpdate (s : DDAState) : DDAState :=
  let aug1a := posPart s.deltaP1.1 + posPart s.deltaP1.2.1 + posPart s.deltaP1.2.2
  let aug1b := posPart s.deltaP1.2.1 + posPart s.deltaP1.2.2
  let aug1c := posPart s.deltaP1.2.2
  let aug2a := posPart s.deltaP2.1 + posPart s.deltaP2.2.1 + posPart s.deltaP2.2.2
  let aug2b := posPart s.deltaP2.2.1 + posPart s.deltaP2.2.2
  let aug2c := posPart s.deltaP2.2.2
  let p0 := clampDesd (s.inipower.1
      - eta * (-s.inilambda.1 - (s.inimu.1 + s.inimu.2.1 + s.inimu.2.2) * delta_time)
      + (s.inixi.1 + s.inixi.2.1 + s.inixi.2.2) * delta_time
      - rho * s.inideltaP.1 - rho * aug1a + rho * aug2a)
  let p1 := clampDesd (s.inipower.2.1
      - eta * (-s.inilambda.2.1 - (s.inimu.2.1 + s.inimu.2.2) * delta_time)
      + (s.inixi.2.1 + s.inixi.2.2) * delta_time
      - rho * s.inideltaP.2.1 - rho * aug1b + rho * aug2b)
  let p2 := clampDesd (s.inipower.2.2
      - eta * (-s.inilambda.2.2 - s.inimu.2.2 * delta_time)
      + s.inixi.2.2 * delta_time
      - rho * s.inideltaP.2.2 - rho * aug1c + rho * aug2c)
  let sum0 := p0
  let sum1 := p0 + p1
  let sum2 := p0 + p1 + p2
  let d1 : Q3 := (E_init.1 - E_full.1 - sum0 * delta_time,
                  E_init.2.1 - E_full.2.1 - sum1 * delta_time,
                  E_init.2.2 - E_full.2.2 - sum2 * delta_time)
  let d2 : Q3 := (sum0 * delta_time - E_init.1,
                  sum1 * delta_time - E_init.2.1,
                  sum2 * delta_time - E_init.2.2)
  let mu' : Q3 := (intPosPart (truncQ (s.inimu.1 + eta * d1.1)),
                   intPosPart (truncQ (s.inimu.2.1 + eta * d1.2.1)),
                   intPosPart (truncQ (s.inimu.2.2 + eta * d1.2.2)))
  let xi' : Q3 := (intPosPart (truncQ (s.inixi.1 + eta * d2.1)),
                   intPosPart (truncQ (s.inixi.2.1 + eta * d2.2.1)),
                   intPosPart (truncQ (s.inixi.2.2 + eta * d2.2.2)))
  { s with
    nextpower := (p0, p1, p2)
    inipower := (p0, p1, p2)
    deltaP1 := d1
    deltaP2 := d2
    nextmu := mu'
    nextxi := xi'
    inimu := mu'
    inixi := xi' }

/-- The grid role-specific update of `HandleUpdate` (lines 363–398): the
priced power step clamped to `[P_min_grid, P_max_grid]`.  The accumulated
`cost` is only logged by the source and is not part of the carried state. -/
def gridRoleUpdate (s : DDAState) : DDAState :=
  let p0 := clampGrid (s.inipower.1
      - eta * (price_profile.1 - s.inilambda.1 - rho * s.inideltaP.1))
  let p1 := clampGrid (s.inipower.2.1
      - eta * (price_profile.2.1 - s.inilambda.2.1 - rho * s.inideltaP.2.1))
  let p2 := clampGrid (s.inipower.2.2
      - eta * (price_profile.2.2 - s.inilambda.2.2 - rho * s.inideltaP.2.2))
  { s with
    nextpower := (p0, p1, p2)
    inipower := (p0, p1, p2) }

/-- The `m_adjnum == 0` branch of `HandleUpdate`: the role-specific update
followed by the shared consensus commit. -/
def fireUpdates (s : DDAState) : DDAState :=
  if s.localsymbol = "4" ∨ s.localsymbol = "7" ∨ s.localsymbol = "10" then
    commitIteration (desdRoleUpdate s)
  else if s.localsymbol = "1" then
    commitIteration (gridRoleUpdate s)
  else
    commitIteration s

/-- `DDAAgent::HandleUpdate` (src/unnamed/part_000 lines 264–418).  A message
with the current iteration and an adjacent symbol decrements `m_adjnum`; if
the counter is then nonzero the message components are accumulated, otherwise
the role-specific and consensus updates fire. -/
def HandleUpdate (s : DDAState) (m : DesdStateMessage) : DDAState :=
  if m.iteration = s.iteration then
    if m.symbol ∈ s.localadj then
      let s1 := { s with adjnum := s.adjnum - 1 }
      if s1.adjnum ≠ 0 then
        { s1 with
          adjdeltaP := (s1.adjdeltaP.1 + m.deltaP.1,
                        s1.adjdeltaP.2.1 + m.deltaP.2.1,
                        s1.adjdeltaP.2.2 + m.deltaP.2.2)
          adjlambda := (s1.adjlambda.1 + m.lambda.1,
                        s1.adjlambda.2.1 + m.lambda.2.1,
                        s1.adjlambda.2.2 + m.lambda.2.2) }
      else
        fireUpdates s1
    else s
  else s

/-- Modelled from the spec (claim C1 comparison): the handler as the spec
describes it, where step 2 accumulates every matching message — including the
one that brings `m_adjnum` to zero — before the updates fire. -/
def HandleUpdateClaimed (s : DDAState) (m : DesdStateMessage) : DDAState :=
  if m.iteration = s.iteration then
    if m.symbol ∈ s.localadj then
      let s1 := { s with
        adjnum := s.adjnum - 1
        adjdeltaP := (s.adjdeltaP.1 + m.deltaP.1,
                      s.adjdeltaP.2.1 + m.deltaP.2.1,
                      s.adjdeltaP.2.2 + m.deltaP.2.2)
        adjlambda := (s.adjlambda.1 + m.lambda.1,
                      s.adjlambda.2.1 + m.lambda.2.1,
                      s.adjlambda.2.2 + m.lambda.2.2) }
      if s1.adjnum ≠ 0 then s1 else fireUpdates s1
    else s
  else s

/-- Modelled from the spec (claim C2 comparison): the consensus update as the
claim states it, with the uncoupled branch keeping the `localratio` factor and
omitting only the `adjratio * adjdeltaP` term. -/
def deltaPLambdaUpdateClaimed (iteration : ℕ) (localratio adjratio : ℚ)
    (inideltaP inilambda adjdeltaP nextdeltaP : Q3) : Q3 × Q3 :=
  if iteration % inner_iter = 0 then
    deltaPLambdaUpdate iteration localratio adjratio inideltaP inilambda adjdeltaP nextdeltaP
  else
    ((localratio * inideltaP.1 + inideltaP.1 - nextdeltaP.1,
      localratio * inideltaP.2.1 + inideltaP.2.1 - nextdeltaP.2.1,
      localratio * inideltaP.2.2 + inideltaP.2.2 - nextdeltaP.2.2),
     (localratio * inilambda.1 + eta * inideltaP.1,
      localratio * inilambda.2.1 + eta * inideltaP.2.1,
      localratio * inilambda.2.2 + eta * inideltaP.2.2))

/-! ## Load balancer (`lbAgent`, src/Broker/src/lb/LoadBalanceAccommodatingPMCU.cpp)

Device actuation is modelled as the list of `Set` commands issued.  The C++
`Container::front()` on an empty device container is undefined behaviour; it
is modelled as `Except.error`.  `P_Migrate = 1` per the source `#define`.
-/

/-- The load states of `LPeerNode` used by the LB module. -/
inductive LBStatus
  | supply
  | norm
  | demand
deriving DecidableEq

/-- Source constant `#define P_Migrate 1`. -/
def P_Migrate : ℚ := 1

/-- One staged device write `device->Set(signal, value)`. -/
structure Cmd where
  device : String
  signal : String
  value : ℚ
deriving DecidableEq

/-- `lbAgent::Step_PStar` (lines 869–895).  Takes the current status, the
current `m_PStar`, and the registered SST device container; returns the
commands issued and the new `m_PStar`, or an error when the source would call
`front()` on an empty container. -/
def Step_PStar (status : LBStatus) (pstar : ℚ) (ssts : List String) :
    Except Unit (List Cmd × ℚ) :=
  match status with
  | .demand =>
      match ssts.head? with
      | none => .error ()
      | some d => .ok ([⟨d, "level", pstar - P_Migrate⟩], pstar - P_Migrate)
  | .supply =>
      match ssts.head? with
      | none => .error ()
      | some d => .ok ([⟨d, "level", pstar + P_Migrate⟩], pstar + P_Migrate)
  | .norm => .ok ([], pstar)

/-- The device actuation in the `lbAgent` constructor (lines 116–130): it
unconditionally calls `front()` on the DESD and DG containers and issues
`Set("onOffSwitch", 0)` and `Set("onOffSwitch", 1)` respectively. -/
def lbAgentInitCommands (desds dgs : List String) : Except Unit (List Cmd) :=
  match desds.head? with
  | none => .error ()
  | some d =>
      match dgs.head? with
      | none => .error ()
      | some g => .ok [⟨d, "onOffSwitch", 0⟩, ⟨g, "onOffSwitch", 1⟩]

/-- Observable outcome of the `"accept"` branch of `lbAgent::HandleRead`
(lines 788–811). -/
structure AcceptOutcome where
  commands : List Cmd
  migratingLogged : Bool
  unexpectedLogged : Bool
deriving DecidableEq

/-- The `"accept"` branch of `lbAgent::HandleRead` (lines 788–811), reached
for a message from another peer.  The received demand value is parsed but
only logged.  When the status is SUPPLY the source logs the migration and
does nothing else: the `Step_PStar()` call is commented out ("this side is
completely passive. So do nothing.").  Otherwise it logs a warning. -/
def handleAcceptMsg (status : LBStatus) (demValue : ℚ) : AcceptOutcome :=
  let _ := demValue
  if status = .supply then
    { commands := [], migratingLogged := true, unexpectedLogged := false }
  else
    { commands := [], migratingLogged := false, unexpectedLogged := true }

/-! ## Plug-and-play adapter (`CArmAdapter`, src/Broker/src/device/CArmAdapter.cpp)

A packet is modelled as its whitespace token list.  `HandleMessage` extracts
the header with `packet >> header` but passes `packet.str()` — the entire
buffer, header token included — to `ReadStatePacket`, so the state-parse loop
re-reads the header token.  `boost::lexical_cast` is modelled as an oracle
argument `cast`; `none` stands for a thrown `bad_lexical_cast`.
-/

/-- Splits a token stream into consecutive `name signal value` triples, as
the loop `while (out >> name >> signal >> strval)` does; a tail of fewer than
three tokens makes the extraction fail and ends the loop. -/
def triples : List String → List (String × String × String)
  | a :: b :: c :: rest => (a, b, c) :: triples rest
  | _ => []

/-- Lookup in an association list keyed by `String`, the model of
`std::map` reads. -/
def assocGet {α : Type} (l : List (String × α)) (k : String) : Option α :=
  match l with
  | [] => none
  | (k', v) :: rest => if k = k' then some v else assocGet rest k

/-- Update in an association list keyed by `String`, the model of
`std::map` writes. -/
def assocSet {α : Type} (l : List (String × α)) (k : String) (v : α) :
    List (String × α) :=
  match l with
  | [] => [(k, v)]
  | (k', v') :: rest => if k = k' then (k, v) :: rest else (k', v') :: assocSet rest k v

/-- Lookup in an association list keyed by `ℕ` (the rx-buffer index map). -/
def assocGetN {α : Type} (l : List (ℕ × α)) (k : ℕ) : Option α :=
  match l with
  | [] => none
  | (k', v) :: rest => if k = k' then some v else assocGetN rest k

/-- Update in an association list keyed by `ℕ` (the rx-buffer index map). -/
def assocSetN {α : Type} (l : List (ℕ × α)) (k : ℕ) (v : α) : List (ℕ × α) :=
  match l with
  | [] => [(k, v)]
  | (k', v') :: rest => if k = k' then (k, v) :: rest else (k', v') :: assocSetN rest k v

/-- The adapter fields read or written by `HandleMessage`/`ReadStatePacket`:
`m_identifier`, `m_stateInfo` (scoped name to rx index), `m_rxBuffer` and
`m_initialized`. -/
structure ArmState where
  identifier : String
  stateInfo : List (String × ℕ)
  rxBuffer : List (ℕ × ℚ)
  initialized : Bool
deriving DecidableEq

/-- The parse loop of `ReadStatePacket` (lines 254–272): for each triple,
scope the name by `m_identifier + ":"`, reject unknown names, cast the value
(`none` models a thrown `bad_lexical_cast`), and reject a repeated rx index.
Returns the `temp` map on success, or the early-returned reply string. -/
def readLoop (cast : String → Option ℚ) (identifier : String)
    (stateInfo : List (String × ℕ)) :
    List (String × String × String) → List (ℕ × ℚ) →
    Except Unit (Sum String (List (ℕ × ℚ)))
  | [], temp => .ok (.inr temp)
  | (name, _signal, strval) :: rest, temp =>
      let scopedName := identifier ++ ":" ++ name
      match assocGet stateInfo scopedName with
      | none => .ok (.inl "UnknownDevice\r\n\r\n")
      | some index =>
          match cast strval with
          | none => .error ()
          | some value =>
              match assocGetN temp index with
              | some _ => .ok (.inl "DuplicateDevice\r\n\r\n")
              | none => readLoop cast identifier stateInfo rest
                  (assocSetN temp index value)

/-- `CArmAdapter::ReadStatePacket` (lines 239–295) applied to the full packet
token list (the source passes `packet.str()`, whose first token is still the
`DeviceStates` header).  Returns the reply string, the updated adapter state,
and whether the 2-second command timer was armed; `Except.error` models a
`bad_lexical_cast` escaping to the caller. -/
def ReadStatePacket (cast : String → Option ℚ) (s : ArmState)
    (tokens : List String) : Except Unit (String × ArmState × Bool) :=
  match readLoop cast s.identifier s.stateInfo (triples tokens) [] with
  | .error () => .error ()
  | .ok (.inl reply) => .ok (reply, s, false)
  | .ok (.inr temp) =>
      let rx := temp.foldl (fun buf kv => assocSetN buf kv.1 kv.2) s.rxBuffer
      .ok ("Received\r\n\r\n",
           { s with rxBuffer := rx, initialized := true },
           !s.initialized)

/-- Observable outcome of one `CArmAdapter::HandleMessage` call: the state
afterwards, the number of `Heartbeat()` resets performed, the reply handed to
`SendData` (if reached), and whether the command timer was armed. -/
structure HandleOutcome where
  state : ArmState
  heartbeats : ℕ
  response : Option String
  commandArmed : Bool
deriving DecidableEq

/-- `CArmAdapter::HandleMessage` (lines 197–234).  `received = none` models
`ReceiveData` throwing; `sendOk = false` models `SendData` throwing.
`Heartbeat()` is called right after reception — before any parsing — and
again after a successful reply. -/
def HandleMessage (cast : String → Option ℚ) (s : ArmState) :
    Option (List String) → Bool → HandleOutcome
  | none, _ => { state := s, heartbeats := 0, response := none, commandArmed := false }
  | some tokens, sendOk =>
      let header := tokens.head?.getD ""
      if header = "DeviceStates" then
        match ReadStatePacket cast s tokens with
        | .error () =>
            { state := s, heartbeats := 1, response := none, commandArmed := false }
        | .ok (reply, s', armed) =>
            if sendOk then
              { state := s', heartbeats := 2, response := some reply, commandArmed := armed }
            else
              { state := s', heartbeats := 1, response := none, commandArmed := armed }
      else if header = "PoliteDisconnect" then
        if sendOk then
          { state := s, heartbeats := 2,
            response := some "PoliteDisconnect: Accepted\r\n\r\n", commandArmed := false }
        else
          { state := s, heartbeats := 1, response := none, commandArmed := false }
      else
        if sendOk then
          { state := s, heartbeats := 2,
            response := some "UnknownHeader\r\n\r\n", commandArmed := false }
        else
          { state := s, heartbeats := 1, response := none, commandArmed := false }

/-- Modelled from the spec (claim C6 comparison): `ReadStatePacket` as the
spec's packet grammar describes it, parsing only the device-state lines that
follow the `DeviceStates` header token. -/
def ReadStatePacketClaimed (cast : String → Option ℚ) (s : ArmState)
    (tokens : List String) : Except Unit (String × ArmState × Bool) :=
  match readLoop cast s.identifier s.stateInfo (triples tokens.tail) [] with
  | .error () => .error ()
  | .ok (.inl reply) => .ok (reply, s, false)
  | .ok (.inr temp) =>
      let rx := temp.foldl (fun buf kv => assocSetN buf kv.1 kv.2) s.rxBuffer
      .ok ("Received\r\n\r\n",
           { s with rxBuffer := rx, initialized := true },
           !s.initialized)

/-! ## Clock synchronizer (`CClockSynchronizer`, src/Broker/src/CClockSynchronizer.cpp)

Times and durations are modelled as rationals counted in seconds.  Map keys
`MapIndex (m_uuid, other)` always have the local uuid first, so maps are
keyed by the second component.  The peer-rotation in `Exchange` only changes
the send order, not the resulting query map, and sends themselves are not
part of the modelled state.
-/

/-- Source constant `MAX_REGRESSION_ENTRIES = 200`. -/
def MAX_REGRESSION_ENTRIES : ℕ := 200
/-- Source constant `SYNCHRONIZER_LAMBDA = .99999`. -/
def SYNCHRONIZER_LAMBDA : ℚ := 99999/100000

/-- Removal from an association list keyed by `String` (`std::map::erase`). -/
def assocRemove {α : Type} (l : List (String × α)) (k : String) :
    List (String × α) :=
  match l with
  | [] => []
  | (k', v) :: rest => if k = k' then rest else (k', v) :: assocRemove rest k

/-- `CClockSynchronizer::TDToDouble`: seconds plus fractional microseconds,
which is the exact value of a microsecond-resolution duration. -/
def TDToDouble (td : ℚ) : ℚ := td

/-- `CClockSynchronizer::DoubleToTD`: the double is split by `modf` into whole
seconds and whole microseconds, truncating toward zero at microsecond
resolution. -/
def DoubleToTD (td : ℚ) : ℚ := (truncQ (td * 1000000) : ℚ) / 1000000

/-- One entry of the offset-table snapshot in an `ExchangeResponseMessage`. -/
structure TableEntry where
  uuid : String
  offset_secs : ℤ
  offset_fracs : ℤ
  skew : ℚ
  weight : ℚ
deriving DecidableEq

/-- The `CClockSynchronizer` fields involved in the exchange protocol.
`queries` and `responses` are keyed by the remote uuid (second component of
the source's `MapIndex`). -/
structure CSState where
  uuid : String
  offsets : List (String × ℚ)
  skews : List (String × ℚ)
  weights : List (String × ℚ)
  lastresponse : List (String × ℕ)
  queries : List (String × (ℕ × ℚ))
  responses : List (String × List (ℚ × ℚ))
  kcounter : ℕ
  myoffset : ℚ
  myskew : ℚ
deriving DecidableEq

/-- The constructor of `CClockSynchronizer` (lines 62–75): the self pair gets
offset 0, weight 1, skew 0; counters start at zero. -/
def initCS (uuid : String) : CSState :=
  { uuid := uuid
    offsets := [(uuid, 0)]
    skews := [(uuid, 0)]
    weights := [(uuid, 1)]
    lastresponse := [(uuid, 0)]
    queries := []
    responses := []
    kcounter := 0
    myoffset := 0
    myskew := 0 }

/-- `CClockSynchronizer::GetWeight` (lines 446–456): the self pair always has
weight 1 with no aging; other pairs decay by `SYNCHRONIZER_LAMBDA` per round
since the recorded response round.  (A missing entry throws in the source and
is unreachable along the modelled flows; it is mapped to 0 here.) -/
def GetWeight (s : CSState) (k : String) : ℚ :=
  if k = s.uuid then 1
  else
    match assocGet s.weights k, assocGet s.lastresponse k with
    | some w, some lr => w * SYNCHRONIZER_LAMBDA ^ (s.kcounter - lr)
    | _, _ => 0

/-- `CClockSynchronizer::SetWeight` (lines 467–473): records the weight and
stamps `lastresponse` with the current round counter. -/
def SetWeight (s : CSState) (k : String) (w : ℚ) : CSState :=
  { s with
    weights := assocSet s.weights k w
    lastresponse := assocSet s.lastresponse k s.kcounter }

/-- The response-list update in `HandleExchangeResponse` (lines 186–194):
push the two new samples at the back, and pop the two oldest when the size
exceeds `MAX_REGRESSION_ENTRIES * 2`. -/
def updateRlist (rlist : List (ℚ × ℚ)) (response challenge now : ℚ) :
    List (ℚ × ℚ) :=
  let r := rlist ++ [(response, challenge), (response, now)]
  if MAX_REGRESSION_ENTRIES * 2 < r.length then r.drop 2 else r

/-- The first regression loop (lines 210–228): sums of `t.first - base` and
`t.second - base`, with `sumlag` alternating sign starting negative (the
source's `even` flag starts `false` and the `false` case subtracts). -/
def regressionSums (base : ℚ) (even : Bool) : List (ℚ × ℚ) → ℚ × ℚ × ℚ
  | [] => (0, 0, 0)
  | t :: rest =>
      let r := regressionSums base (!even) rest
      (t.1 - base + r.1,
       t.2 - base + r.2.1,
       (if even then t.2 - base else -(t.2 - base)) + r.2.2)

/-- The regression body of `HandleExchangeResponse` (lines 198–265): computes
the adjusted intercept `alpha` and the slope `fij` from the response list
with `base = now`.  The means pass through `DoubleToTD`, as in the source. -/
def regressionAlphaFij (rlist : List (ℚ × ℚ)) (base : ℚ) : ℚ × ℚ :=
  let sums := regressionSums base false rlist
  let n : ℚ := (rlist.length : ℚ)
  let lag := TDToDouble sums.2.2 / n
  let dxbar := TDToDouble sums.1 / n
  let dybar := TDToDouble sums.2.1 / n
  let xbar := DoubleToTD dxbar
  let ybar := DoubleToTD dybar
  let tmp34 := rlist.foldl
    (fun acc t =>
      let tmp1 := TDToDouble (t.1 - base - xbar)
      let tmp2 := TDToDouble (t.2 - base - ybar)
      (acc.1 + tmp1 * tmp2, acc.2 + tmp1 * tmp1))
    ((0 : ℚ), (0 : ℚ))
  let fij := if tmp34.2 ≠ 0 then tmp34.1 / tmp34.2 else 1
  let alpha := dybar - fij * dxbar
  let alpha := if alpha ≤ 0 then alpha + lag else alpha - lag
  (alpha, fij)

/-- One iteration of the transitive-propagation loop in
`HandleExchangeResponse` (lines 270–292): entries for the sender or for the
local node are skipped; an unseen neighbor is initialised with weight 0; the
entry is replaced when the current effective weight is below the advertised
weight minus the 0.1 trust penalty. -/
def stepTableEntry (sender : String) (s : CSState) (te : TableEntry) :
    CSState :=
  if te.uuid = sender ∨ te.uuid = s.uuid then s
  else
    let cjl : ℚ := (te.offset_secs : ℚ) + (te.offset_fracs : ℚ) / 1000000
    let wjl := te.weight - 1/10
    let fjl := te.skew
    let s' :=
      match assocGet s.offsets te.uuid with
      | none =>
          SetWeight
            { s with
              offsets := assocSet s.offsets te.uuid 0
              skews := assocSet s.skews te.uuid 0 }
            te.uuid 0
      | some _ => s
    if GetWeight s' te.uuid < wjl then
      SetWeight
        { s' with
          offsets := assocSet s'.offsets te.uuid
            ((assocGet s'.offsets sender).getD 0 + cjl)
          skews := assocSet s'.skews te.uuid
            ((assocGet s'.skews sender).getD 0 + fjl) }
        te.uuid wjl
    else s'

/-- The state commit of an accepted exchange response (lines 174–269): the
query is cleared, the two new samples are recorded, and the regression
results are committed for the sender with weight 1. -/
def acceptState (s : CSState) (sender : String) (response challenge now : ℚ) :
    CSState :=
  let rlist0 := (assocGet s.responses sender).getD []
  let rlist := updateRlist rlist0 response challenge now
  let af := regressionAlphaFij rlist now
  let s1 :=
    { s with
      queries := assocRemove s.queries sender
      responses := assocSet s.responses sender rlist
      offsets := assocSet s.offsets sender (-(DoubleToTD af.1))
      skews := assocSet s.skews sender (af.2 - 1) }
  SetWeight s1 sender 1

/-- `CClockSynchronizer::HandleExchangeResponse` (lines 161–293).  A response
whose sequence number does not match the outstanding query for the sender is
dropped; otherwise the query is cleared, two samples are appended, and the
regression and transitive propagation update the tables. -/
def HandleExchangeResponse (s : CSState) (sender : String) (k : ℕ)
    (response now : ℚ) (table : List TableEntry) : CSState :=
  match assocGet s.queries sender with
  | none => s
  | some q =>
      if q.1 ≠ k then s
      else table.foldl (stepTableEntry sender) (acceptState s sender response q.2 now)

/-- `CClockSynchronizer::Exchange` (lines 303–371), on the non-error path:
queries are recorded for every peer except self (the rotation only reorders
sends), the round counter advances, the self pair is pinned to offset 0,
weight 1, skew 0 both before and after the weighted means are published. -/
def Exchange (s : CSState) (peers : List String) (now : ℚ) : CSState :=
  let queries' := (peers.filter (fun p => p != s.uuid)).foldl
    (fun q p => assocSet q p (s.kcounter, now)) s.queries
  let s1 := { s with queries := queries', kcounter := s.kcounter + 1 }
  let s2 := SetWeight
    { s1 with
      offsets := assocSet s1.offsets s1.uuid 0
      skews := assocSet s1.skews s1.uuid 0 }
    s1.uuid 1
  let sums := s2.offsets.foldl
    (fun acc kv =>
      (acc.1 + GetWeight s2 kv.1 * TDToDouble kv.2,
       acc.2.1 + GetWeight s2 kv.1,
       acc.2.2 + GetWeight s2 kv.1 * (assocGet s2.skews kv.1).getD 0))
    ((0 : ℚ), (0 : ℚ), (0 : ℚ))
  let s3 :=
    { s2 with
      myoffset := if sums.2.1 ≠ 0 then DoubleToTD (sums.1 / sums.2.1) else s2.myoffset
      myskew := if sums.2.1 ≠ 0 then sums.2.2 / sums.2.1 else s2.myskew }
  SetWeight
    { s3 with
      offsets := assocSet s3.offsets s3.uuid 0
      skews := assocSet s3.skews s3.uuid 0 }
    s3.uuid 1

/-- The states of `CClockSynchronizer` reachable through its public
operations: construction, `Exchange` rounds, and handled exchange-response
messages.  (`HandleExchange` only sends a reply and leaves the state
unchanged.) -/
inductive CSReach : CSState → Prop
  | init (uuid : String) : CSReach (initCS uuid)
  | exchange (s : CSState) (peers : List String) (now : ℚ) :
      CSReach s → CSReach (Exchange s peers now)
  | response (s : CSState) (sender : String) (k : ℕ) (resp now : ℚ)
      (table : List TableEntry) :
      CSReach s → CSReach (HandleExchangeResponse s sender k resp now table)

/-! ## Concrete instances used by counterexamples and witnesses -/

/-- A dispatch state for an "other role" node (symbol `"8"`), one neighbor
outstanding, all solver arrays zero and unit mixing ratios. -/
def sC1 : DDAState :=
  { iteration := 0, localsymbol := "8", localadj := {"2"}, adjnum := 1,
    localratio := 1, adjratio := 1,
    inideltaP := (0, 0, 0), inilambda := (0, 0, 0), adjdeltaP := (0, 0, 0),
    adjlambda := (0, 0, 0), nextdeltaP := (0, 0, 0), nextlambda := (0, 0, 0),
    inipower := (0, 0, 0), nextpower := (0, 0, 0), inimu := (0, 0, 0),
    inixi := (0, 0, 0), nextmu := (0, 0, 0), nextxi := (0, 0, 0),
    deltaP1 := (0, 0, 0), deltaP2 := (0, 0, 0) }

/-- The message whose arrival brings `sC1`'s neighbor counter to zero,
carrying nonzero ΔP components. -/
def mC1 : DesdStateMessage :=
  { iteration := 0, symbol := "2", deltaP := (1, 1, 1), lambda := (0, 0, 0) }

/-- A dispatch state like `sC1` but with two neighbors outstanding. -/
def sC1w : DDAState :=
  { iteration := 0, localsymbol := "8", localadj := {"2", "3"}, adjnum := 2,
    localratio := 1, adjratio := 1,
    inideltaP := (0, 0, 0), inilambda := (0, 0, 0), adjdeltaP := (1, 2, 3),
    adjlambda := (0, 0, 0), nextdeltaP := (0, 0, 0), nextlambda := (0, 0, 0),
    inipower := (0, 0, 0), nextpower := (0, 0, 0), inimu := (0, 0, 0),
    inixi := (0, 0, 0), nextmu := (0, 0, 0), nextxi := (0, 0, 0),
    deltaP1 := (0, 0, 0), deltaP2 := (0, 0, 0) }

/-- A matching message for `sC1w` that does not exhaust the counter. -/
def mC1w : DesdStateMessage :=
  { iteration := 0, symbol := "2", deltaP := (1, 1, 1), lambda := (1, 1, 1) }

/-- A DESD-role dispatch state (symbol `"4"`): one neighbor outstanding, all
duals and residuals zero, committed power `(1/10, 0, 0)`. -/
def sC3 : DDAState :=
  { iteration := 0, localsymbol := "4", localadj := {"2"}, adjnum := 1,
    localratio := 1, adjratio := 1,
    inideltaP := (0, 0, 0), inilambda := (0, 0, 0), adjdeltaP := (0, 0, 0),
    adjlambda := (0, 0, 0), nextdeltaP := (0, 0, 0), nextlambda := (0, 0, 0),
    inipower := (1/10, 0, 0), nextpower := (0, 0, 0), inimu := (0, 0, 0),
    inixi := (0, 0, 0), nextmu := (0, 0, 0), nextxi := (0, 0, 0),
    deltaP1 := (0, 0, 0), deltaP2 := (0, 0, 0) }

/-- The message whose arrival triggers the DESD update of `sC3`. -/
def mC3 : DesdStateMessage :=
  { iteration := 0, symbol := "2", deltaP := (0, 0, 0), lambda := (0, 0, 0) }

/-- `sC1` after the final decrement of the neighbor counter. -/
def sC1z : DDAState :=
  { iteration := 0, localsymbol := "8", localadj := {"2"}, adjnum := 0,
    localratio := 1, adjratio := 1,
    inideltaP := (0, 0, 0), inilambda := (0, 0, 0), adjdeltaP := (0, 0, 0),
    adjlambda := (0, 0, 0), nextdeltaP := (0, 0, 0), nextlambda := (0, 0, 0),
    inipower := (0, 0, 0), nextpower := (0, 0, 0), inimu := (0, 0, 0),
    inixi := (0, 0, 0), nextmu := (0, 0, 0), nextxi := (0, 0, 0),
    deltaP1 := (0, 0, 0), deltaP2 := (0, 0, 0) }

/-- `sC1` after the final decrement when the message components are also
accumulated, as the claim describes. -/
def sC1zc : DDAState :=
  { iteration := 0, localsymbol := "8", localadj := {"2"}, adjnum := 0,
    localratio := 1, adjratio := 1,
    inideltaP := (0, 0, 0), inilambda := (0, 0, 0), adjdeltaP := (1, 1, 1),
    adjlambda := (0, 0, 0), nextdeltaP := (0, 0, 0), nextlambda := (0, 0, 0),
    inipower := (0, 0, 0), nextpower := (0, 0, 0), inimu := (0, 0, 0),
    inixi := (0, 0, 0), nextmu := (0, 0, 0), nextxi := (0, 0, 0),
    deltaP1 := (0, 0, 0), deltaP2 := (0, 0, 0) }

/-- `sC3` after the final decrement of the neighbor counter. -/
def sC3z : DDAState :=
  { iteration := 0, localsymbol := "4", localadj := {"2"}, adjnum := 0,
    localratio := 1, adjratio := 1,
    inideltaP := (0, 0, 0), inilambda := (0, 0, 0), adjdeltaP := (0, 0, 0),
    adjlambda := (0, 0, 0), nextdeltaP := (0, 0, 0), nextlambda := (0, 0, 0),
    inipower := (1/10, 0, 0), nextpower := (0, 0, 0), inimu := (0, 0, 0),
    inixi := (0, 0, 0), nextmu := (0, 0, 0), nextxi := (0, 0, 0),
    deltaP1 := (0, 0, 0), deltaP2 := (0, 0, 0) }

/-- `sC3z` after the DESD role-specific update: committed power `(1/10,0,0)`,
recomputed residuals, and duals truncated to zero by the `int temp`. -/
def sC3post : DDAState :=
  { iteration := 0, localsymbol := "4", localadj := {"2"}, adjnum := 0,
    localratio := 1, adjratio := 1,
    inideltaP := (0, 0, 0), inilambda := (0, 0, 0), adjdeltaP := (0, 0, 0),
    adjlambda := (0, 0, 0), nextdeltaP := (0, 0, 0), nextlambda := (0, 0, 0),
    inipower := (1/10, 0, 0), nextpower := (1/10, 0, 0), inimu := (0, 0, 0),
    inixi := (0, 0, 0), nextmu := (0, 0, 0), nextxi := (0, 0, 0),
    deltaP1 := (-(11)/2, -10, -6), deltaP2 := (1/2, 0, 1) }

/-- A concrete total cast oracle: every string parses to 1. -/
def castConstOne : String → Option ℚ := fun _ => some 1

/-- An adapter session for claim C6: identifier `"id"`, with the scoped
device name `"id:foo"` registered at rx index 0. -/
def armC6 : ArmState :=
  { identifier := "id", stateInfo := [("id:foo", 0)], rxBuffer := [],
    initialized := false }

/-- An adapter session for the C6 witness. -/
def armC6w : ArmState :=
  { identifier := "id", stateInfo := [("id:foo", 0)], rxBuffer := [],
    initialized := false }

/-- An adapter session for claim C7. -/
def armC7 : ArmState :=
  { identifier := "id", stateInfo := [], rxBuffer := [], initialized := false }

/-- An adapter session for claim C10, not yet initialized. -/
def armC10 : ArmState :=
  { identifier := "id", stateInfo := [("id:foo", 0)], rxBuffer := [],
    initialized := false }

/-- On a node whose symbol is none of the special roles, `fireUpdates` is
just the consensus commit. -/
theorem fireUpdates_other (s : DDAState)
    (h4 : s.localsymbol ≠ "4") (h7 : s.localsymbol ≠ "7")
    (h10 : s.localsymbol ≠ "10") (h1 : s.localsymbol ≠ "1") :
    fireUpdates s = commitIteration s := by
  simp [fireUpdates, h4, h7, h10, h1]

/-! ## Claim C1 -/

/-- C1 counterexample: the claim says the message that brings `m_adjnum` to
zero is accumulated into `adjΔP`/`adjλ` before the updates fire, but
`HandleUpdate` only accumulates when the decremented counter is nonzero; on
`sC1`/`mC1` the code and the claimed behaviour produce different states. -/
theorem C1_counterexample :
    (HandleUpdate sC1 mC1).inideltaP.1 ≠ (HandleUpdateClaimed sC1 mC1).inideltaP.1 := by
  have h0 : HandleUpdate sC1 mC1 = fireUpdates sC1z := by
    simp [HandleUpdate, sC1, mC1, sC1z]
  have h0' : HandleUpdateClaimed sC1 mC1 = fireUpdates sC1zc := by
    simp [HandleUpdateClaimed, sC1, mC1, sC1zc]
  rw [h0, h0', fireUpdates_other sC1z (by decide) (by decide) (by decide) (by decide),
    fireUpdates_other sC1zc (by decide) (by decide) (by decide) (by decide)]
  norm_num [commitIteration, deltaPLambdaUpdate, inner_iter, eta, sC1z, sC1zc]

/-- C1 (corrected): a matching message (current iteration, adjacent symbol)
is accumulated into `adjΔP`/`adjλ` exactly when it does not bring `m_adjnum`
to zero; the final message only fires the role-specific and consensus
updates, and its ΔP/λ components are discarded (the result does not depend on
them). -/
theorem C1_accumulate_except_last (s : DDAState) (m : DesdStateMessage)
    (h1 : m.iteration = s.iteration) (h2 : m.symbol ∈ s.localadj) :
    (s.adjnum ≠ 1 →
      HandleUpdate s m =
        { s with
          adjnum := s.adjnum - 1
          adjdeltaP := (s.adjdeltaP.1 + m.deltaP.1,
                        s.adjdeltaP.2.1 + m.deltaP.2.1,
                        s.adjdeltaP.2.2 + m.deltaP.2.2)
          adjlambda := (s.adjlambda.1 + m.lambda.1,
                        s.adjlambda.2.1 + m.lambda.2.1,
                        s.adjlambda.2.2 + m.lambda.2.2) }) ∧
    (s.adjnum = 1 → HandleUpdate s m = fireUpdates { s with adjnum := 0 }) := by
  constructor
  · intro hne
    have hz : ¬(s.adjnum - 1 = 0) := by omega
    simp [HandleUpdate, h1, h2, hz]
  · intro heq
    have hz : s.adjnum - 1 = 0 := by omega
    simp [HandleUpdate, h1, h2, hz]

/-- C1 witness: the amended statement evaluated on a concrete state with two
neighbors outstanding. -/
theorem C1_witness :
    HandleUpdate sC1w mC1w =
      { sC1w with adjnum := 1, adjdeltaP := (2, 3, 4), adjlambda := (1, 1, 1) } := by
  have h := C1_accumulate_except_last sC1w mC1w (by decide) (by decide)
  have h2 := h.1 (by decide)
  rw [h2]
  norm_num [sC1w, mC1w]

/-! ## Claim C2 -/

/-- C2 counterexample: on an iteration that is not a multiple of 5 the code
drops the `localratio` factor entirely (`ΔP_next = 2ΔP − ΔP_next_prev`,
`λ_next = λ + η·ΔP`), so it differs from the claimed uncoupled form that
keeps `localratio`. -/
theorem C2_counterexample :
    (deltaPLambdaUpdate 1 (1/2) (1/3) (1, 1, 1) (1, 1, 1) (0, 0, 0) (0, 0, 0)).1.1 ≠
      (deltaPLambdaUpdateClaimed 1 (1/2) (1/3) (1, 1, 1) (1, 1, 1) (0, 0, 0) (0, 0, 0)).1.1 := by
  norm_num [deltaPLambdaUpdate, deltaPLambdaUpdateClaimed, inner_iter, eta]

/-- C2 (corrected): on iterations divisible by `inner_iter = 5` the coupled
form is exactly as claimed (with `adjratio·adjΔP` also feeding the λ update);
on all other iterations both formulas drop the `localratio` factor as well:
`ΔP_next = 2·ΔP − ΔP_next_prev` and `λ_next = λ + η·ΔP`. -/
theorem C2_consensus_update (iteration : ℕ) (localratio adjratio : ℚ)
    (dP lam adj prev : Q3) :
    deltaPLambdaUpdate iteration localratio adjratio dP lam adj prev =
      if iteration % inner_iter = 0 then
        ((localratio * dP.1 + adjratio * adj.1 + dP.1 - prev.1,
          localratio * dP.2.1 + adjratio * adj.2.1 + dP.2.1 - prev.2.1,
          localratio * dP.2.2 + adjratio * adj.2.2 + dP.2.2 - prev.2.2),
         (localratio * lam.1 + adjratio * adj.1 + eta * dP.1,
          localratio * lam.2.1 + adjratio * adj.2.1 + eta * dP.2.1,
          localratio * lam.2.2 + adjratio * adj.2.2 + eta * dP.2.2))
      else
        ((2 * dP.1 - prev.1, 2 * dP.2.1 - prev.2.1, 2 * dP.2.2 - prev.2.2),
         (lam.1 + eta * dP.1, lam.2.1 + eta * dP.2.1, lam.2.2 + eta * dP.2.2)) := by
  unfold deltaPLambdaUpdate
  split
  · rfl
  · have e1 : dP.1 + dP.1 - prev.1 = 2 * dP.1 - prev.1 := by ring
    have e2 : dP.2.1 + dP.2.1 - prev.2.1 = 2 * dP.2.1 - prev.2.1 := by ring
    have e3 : dP.2.2 + dP.2.2 - prev.2.2 = 2 * dP.2.2 - prev.2.2 := by ring
    rw [e1, e2, e3]

/-! ## Claim C3 -/

/-- C3 (code bug): in the DESD dual projection the source stores
`m_inixi[i] + eta * m_deltaP2[i]` into an `int temp`, truncating toward zero
before the `max(0, ·)` projection.  On `sC3` the recomputed residual is
`ΔP2 = (1/2, 0, 1)` and the spec's real-valued projection of `ξ₀` is
`max(0, 0 + η·(1/2)) = 1/4`, but the code commits `ξ = (0, 0, 0)`. -/
theorem C3_dual_projection_truncated :
    (HandleUpdate sC3 mC3).deltaP2 = ((1 : ℚ)/2, 0, 1) ∧
    (HandleUpdate sC3 mC3).inixi = ((0 : ℚ), 0, 0) ∧
    (HandleUpdate sC3 mC3).inixi.1 ≠
      max 0 (sC3.inixi.1 + eta * (HandleUpdate sC3 mC3).deltaP2.1) := by
  have h0 : HandleUpdate sC3 mC3 = fireUpdates sC3z := by
    simp [HandleUpdate, sC3, mC3, sC3z]
  have h1 : fireUpdates sC3z = commitIteration (desdRoleUpdate sC3z) := by
    simp [fireUpdates, sC3z]
  have h2 : desdRoleUpdate sC3z = sC3post := by
    norm_num [desdRoleUpdate, sC3z, sC3post, posPart, clampDesd, truncQ,
      intPosPart, E_init, E_full, eta, rho, delta_time, P_max_desd, P_min_desd,
      Int.ceil_neg]
  rw [h0, h1, h2]
  norm_num [commitIteration, eta, sC3, sC3post]

/-! ## Claim C4 -/

/-- C4 counterexample: `Step_PStar` in SUPPLY would raise the SST level to
`m_PStar + P_Migrate`, but the `"accept"` branch of `HandleRead` never calls
it (the call is commented out), so the handler issues no command. -/
theorem C4_counterexample :
    Step_PStar LBStatus.supply 0 ["sst0"] =
      Except.ok ([⟨"sst0", "level", 1⟩], 1) ∧
    (handleAcceptMsg LBStatus.supply 2).commands = [] := by
  norm_num [Step_PStar, handleAcceptMsg, P_Migrate]

/-- C4 (corrected): in this accommodating variant the `"accept"` handler is
completely passive: whatever the status, it issues no device command; it logs
the migration exactly when the status is SUPPLY and logs the unexpected-
message warning otherwise.  `Step_PStar` itself, were it called in SUPPLY,
would set the first SST's level to `m_PStar + P_Migrate`. -/
theorem C4_accept_is_passive (status : LBStatus) (v : ℚ) :
    (handleAcceptMsg status v).commands = [] ∧
    ((handleAcceptMsg status v).migratingLogged = true ↔ status = LBStatus.supply) ∧
    ((handleAcceptMsg status v).unexpectedLogged = true ↔ status ≠ LBStatus.supply) ∧
    (∀ (p : ℚ) (d : String) (ds : List String),
      Step_PStar LBStatus.supply p (d :: ds) =
        Except.ok ([⟨d, "level", p + P_Migrate⟩], p + P_Migrate)) := by
  cases status <;> simp [handleAcceptMsg, Step_PStar]

/-! ## Claim C5 -/

/-- C5 counterexample: with no SST registered, `Step_PStar` in SUPPLY does
not skip the actuation — it calls `front()` on the empty container (modelled
as an error), and the constructor does the same for a missing DESD. -/
theorem C5_counterexample :
    Step_PStar LBStatus.supply 0 [] = Except.error () ∧
    lbAgentInitCommands [] ["dg0"] = Except.error () :=
  ⟨rfl, rfl⟩

/-- C5 (corrected): no LB actuation path checks that a device of the target
type is registered.  `Step_PStar` in SUPPLY or DEMAND and the constructor
unconditionally access the first device of the type, failing on an empty
container instead of skipping; only `Step_PStar`'s neither-supply-nor-demand
branch returns without touching a device (logging the aborted migration). -/
theorem C5_actuation_unchecked (p : ℚ) :
    Step_PStar LBStatus.supply p [] = Except.error () ∧
    Step_PStar LBStatus.demand p [] = Except.error () ∧
    Step_PStar LBStatus.norm p [] = Except.ok ([], p) ∧
    (∀ ds : List String, lbAgentInitCommands [] ds = Except.error ()) ∧
    (∀ (d : String) (ds : List String),
      lbAgentInitCommands (d :: ds) [] = Except.error ()) ∧
    (∀ (d : String) (ds : List String) (g : String) (gs : List String),
      lbAgentInitCommands (d :: ds) (g :: gs) =
        Except.ok [⟨d, "onOffSwitch", 0⟩, ⟨g, "onOffSwitch", 1⟩]) := by
  refine ⟨rfl, rfl, rfl, fun ds => rfl, fun d ds => rfl, fun d ds g gs => rfl⟩

/-! ## Claim C6 -/

/-- Reading an association map after a write, for the `ℕ`-keyed rx maps. -/
theorem assocGetN_assocSetN {α : Type} (l : List (ℕ × α)) (k k' : ℕ) (v : α) :
    assocGetN (assocSetN l k v) k' = if k' = k then some v else assocGetN l k' := by
  induction l with
  | nil => by_cases h : k' = k <;> simp [assocSetN, assocGetN, h]
  | cons hd tl ih =>
      obtain ⟨a, b⟩ := hd
      by_cases h1 : k = a
      · subst h1
        by_cases h2 : k' = k <;> simp [assocSetN, assocGetN, h2]
      · by_cases h2 : k' = a
        · subst h2
          have h3 : ¬ k' = k := fun h => h1 h.symm
          simp [assocSetN, assocGetN, h1, h3]
        · simp [assocSetN, assocGetN, h1, h2, ih]

/-- Characterization of the `ReadStatePacket` parse loop under a cast oracle
that never throws: the loop succeeds with the `temp` map exactly when every
scoped name is registered, the mapped rx indices are pairwise distinct, and
none collides with the accumulator; `UnknownDevice` pinpoints an unregistered
scoped name; `DuplicateDevice` pinpoints an index collision. -/
theorem readLoop_characterization (cast : String → Option ℚ)
    (hc : ∀ str, (cast str).isSome) (ident : String)
    (si : List (String × ℕ)) :
    ∀ (ts : List (String × String × String)) (temp : List (ℕ × ℚ)),
      ((∃ t', readLoop cast ident si ts temp = Except.ok (Sum.inr t')) ↔
        ((∀ t ∈ ts, assocGet si (ident ++ ":" ++ t.1) ≠ none) ∧
         (ts.map (fun t => (assocGet si (ident ++ ":" ++ t.1)).getD 0)).Pairwise
           (fun a b => a ≠ b) ∧
         (∀ i ∈ ts.map (fun t => (assocGet si (ident ++ ":" ++ t.1)).getD 0),
           assocGetN temp i = none))) ∧
      (readLoop cast ident si ts temp = Except.ok (Sum.inl "UnknownDevice\r\n\r\n") →
        ∃ t ∈ ts, assocGet si (ident ++ ":" ++ t.1) = none) ∧
      (readLoop cast ident si ts temp = Except.ok (Sum.inl "DuplicateDevice\r\n\r\n") →
        ¬((ts.map (fun t => (assocGet si (ident ++ ":" ++ t.1)).getD 0)).Pairwise
            (fun a b => a ≠ b) ∧
          (∀ i ∈ ts.map (fun t => (assocGet si (ident ++ ":" ++ t.1)).getD 0),
            assocGetN temp i = none))) ∧
      ((∃ t', readLoop cast ident si ts temp = Except.ok (Sum.inr t')) ∨
        readLoop cast ident si ts temp = Except.ok (Sum.inl "UnknownDevice\r\n\r\n") ∨
        readLoop cast ident si ts temp = Except.ok (Sum.inl "DuplicateDevice\r\n\r\n")) := by
  intro ts
  induction ts with
  | nil =>
      intro temp
      refine ⟨?_, ?_, ?_, Or.inl ⟨temp, rfl⟩⟩
      · simp [readLoop]
      · simp [readLoop]
      · simp [readLoop]
  | cons t ts ih =>
      intro temp
      obtain ⟨name, sgn, sval⟩ := t
      rcases hreg : assocGet si (ident ++ ":" ++ name) with _ | i
      · refine ⟨?_, ?_, ?_, Or.inr (Or.inl (by simp [readLoop, hreg]))⟩
        · constructor
          · rintro ⟨t', ht⟩
            simp [readLoop, hreg] at ht
          · rintro ⟨hall, -, -⟩
            exact absurd hreg (hall (name, sgn, sval) (List.mem_cons_self _ _))
        · intro _
          exact ⟨(name, sgn, sval), List.mem_cons_self _ _, hreg⟩
        · intro h
          simp [readLoop, hreg] at h
      · obtain ⟨v, hv⟩ := Option.isSome_iff_exists.mp (hc sval)
        rcases htemp : assocGetN temp i with _ | w
        · -- fresh index: the loop recurses with the extended accumulator
          have hstep : readLoop cast ident si ((name, sgn, sval) :: ts) temp =
              readLoop cast ident si ts (assocSetN temp i v) := by
            simp [readLoop, hreg, hv, htemp]
          obtain ⟨ihiff, ihunk, ihdup, ihtri⟩ := ih (assocSetN temp i v)
          have hmapcons : ((name, sgn, sval) :: ts).map
              (fun t => (assocGet si (ident ++ ":" ++ t.1)).getD 0) =
              i :: ts.map (fun t => (assocGet si (ident ++ ":" ++ t.1)).getD 0) := by
            simp [hreg]
          refine ⟨?_, ?_, ?_, ?_⟩
          · rw [hstep, ihiff, hmapcons]
            constructor
            · rintro ⟨hall, hpw, hfresh⟩
              have hfresh2 : ∀ j ∈ ts.map
                  (fun t => (assocGet si (ident ++ ":" ++ t.1)).getD 0),
                  ¬ j = i ∧ assocGetN temp j = none := by
                intro j hj
                have h := hfresh j hj
                rw [assocGetN_assocSetN] at h
                by_cases hji : j = i
                · rw [if_pos hji] at h; cases h
                · rw [if_neg hji] at h; exact ⟨hji, h⟩
              refine ⟨?_, ?_, ?_⟩
              · intro u hu
                rcases List.mem_cons.mp hu with h | h
                · subst h; simp [hreg]
                · exact hall u h
              · rw [List.pairwise_cons]
                exact ⟨fun b hb hib => (hfresh2 b hb).1 hib.symm, hpw⟩
              · intro j hj
                rcases List.mem_cons.mp hj with h | h
                · rw [h]; exact htemp
                · exact (hfresh2 j h).2
            · rintro ⟨hall, hpw, hfresh⟩
              rw [List.pairwise_cons] at hpw
              refine ⟨fun u hu => hall u (List.mem_cons_of_mem _ hu), hpw.2, ?_⟩
              intro j hj
              rw [assocGetN_assocSetN]
              have hji : ¬ j = i := fun hji => (hpw.1 j hj) hji.symm
              rw [if_neg hji]
              exact hfresh j (List.mem_cons_of_mem _ hj)
          · rw [hstep]
            intro h
            obtain ⟨t0, ht0, hn⟩ := ihunk h
            exact ⟨t0, List.mem_cons_of_mem _ ht0, hn⟩
          · rw [hstep, hmapcons]
            intro h hcontra
            obtain ⟨hpw, hfresh⟩ := hcontra
            rw [List.pairwise_cons] at hpw
            refine ihdup h ⟨hpw.2, ?_⟩
            intro j hj
            rw [assocGetN_assocSetN]
            have hji : ¬ j = i := fun hji => (hpw.1 j hj) hji.symm
            rw [if_neg hji]
            exact hfresh j (List.mem_cons_of_mem _ hj)
          · rw [hstep]
            exact ihtri
        · -- index collision: early DuplicateDevice
          have hstep : readLoop cast ident si ((name, sgn, sval) :: ts) temp =
              Except.ok (Sum.inl "DuplicateDevice\r\n\r\n") := by
            simp [readLoop, hreg, hv, htemp]
          have hmem : i ∈ ((name, sgn, sval) :: ts).map
              (fun t => (assocGet si (ident ++ ":" ++ t.1)).getD 0) := by
            simp [hreg]
          refine ⟨?_, ?_, ?_, Or.inr (Or.inr hstep)⟩
          · constructor
            · rintro ⟨t', ht⟩
              rw [hstep] at ht
              simp at ht
            · rintro ⟨-, -, hfresh⟩
              have h := hfresh i hmem
              rw [htemp] at h
              cases h
          · intro h
            rw [hstep] at h
            simp at h
          · intro _ hcontra
            have h := hcontra.2 i hmem
            rw [htemp] at h
            cases h

/-- C6 counterexample: a packet whose only device-state line names the
registered device `id:foo` still gets `UnknownDevice`, because
`ReadStatePacket` receives `packet.str()` — the whole buffer — and re-reads
the `DeviceStates` header token as the first device name; the spec-described
parser on the same packet replies `Received`. -/
theorem C6_counterexample :
    ReadStatePacket castConstOne armC6 ["DeviceStates", "foo", "sig", "1"] =
      Except.ok ("UnknownDevice\r\n\r\n", armC6, false) ∧
    ReadStatePacketClaimed castConstOne armC6 ["DeviceStates", "foo", "sig", "1"] =
      Except.ok ("Received\r\n\r\n",
        { armC6 with rxBuffer := [(0, 1)], initialized := true }, true) := by
  constructor <;> rfl

/-- C6 (corrected): the parse loop runs over the token triples of the whole
packet — the `DeviceStates` header token included — and checks registration
on the scoped name only (the signal is never consulted).  Under a cast oracle
that never throws, the reply is `Received` exactly when every such scoped
name is registered and the mapped rx indices are pairwise distinct;
`UnknownDevice` implies some scoped name is unregistered; `DuplicateDevice`
implies an rx-index collision; any other opening header is answered
`UnknownHeader`. -/
theorem C6_packet_responses (cast : String → Option ℚ) (s : ArmState)
    (tokens : List String) (hc : ∀ str, (cast str).isSome) :
    (∃ reply s' armed,
      ReadStatePacket cast s tokens = Except.ok (reply, s', armed) ∧
      (reply = "Received\r\n\r\n" ↔
        (∀ t ∈ triples tokens,
          assocGet s.stateInfo (s.identifier ++ ":" ++ t.1) ≠ none) ∧
        ((triples tokens).map
          (fun t => (assocGet s.stateInfo (s.identifier ++ ":" ++ t.1)).getD 0)).Pairwise
          (fun a b => a ≠ b)) ∧
      (reply = "UnknownDevice\r\n\r\n" →
        ∃ t ∈ triples tokens,
          assocGet s.stateInfo (s.identifier ++ ":" ++ t.1) = none) ∧
      (reply = "DuplicateDevice\r\n\r\n" →
        ¬((triples tokens).map
          (fun t => (assocGet s.stateInfo (s.identifier ++ ":" ++ t.1)).getD 0)).Pairwise
          (fun a b => a ≠ b))) ∧
    ((tokens.head?.getD "") ≠ "DeviceStates" →
      (tokens.head?.getD "") ≠ "PoliteDisconnect" →
      (HandleMessage cast s (some tokens) true).response =
        some "UnknownHeader\r\n\r\n") := by
  obtain ⟨hiff, hunk, hdup, htri⟩ :=
    readLoop_characterization cast hc s.identifier s.stateInfo (triples tokens) []
  constructor
  · rcases htri with ⟨t', ht⟩ | ht | ht
    · refine ⟨"Received\r\n\r\n",
        ArmState.mk s.identifier s.stateInfo
          (t'.foldl (fun buf kv => assocSetN buf kv.1 kv.2) s.rxBuffer) true,
        !s.initialized, ?_, ?_, ?_, ?_⟩
      · simp [ReadStatePacket, ht]
      · constructor
        · intro _
          obtain ⟨hall, hpw, -⟩ := hiff.mp ⟨t', ht⟩
          exact ⟨hall, hpw⟩
        · intro _
          rfl
      · intro h
        simp at h
      · intro h
        simp at h
    · refine ⟨"UnknownDevice\r\n\r\n", s, false, ?_, ?_, ?_, ?_⟩
      · simp [ReadStatePacket, ht]
      · constructor
        · intro h
          simp at h
        · rintro ⟨hall, hpw⟩
          obtain ⟨t0, ht0, hn⟩ := hunk ht
          exact absurd hn (hall t0 ht0)
      · intro _
        exact hunk ht
      · intro h
        simp at h
    · refine ⟨"DuplicateDevice\r\n\r\n", s, false, ?_, ?_, ?_, ?_⟩
      · simp [ReadStatePacket, ht]
      · constructor
        · intro h
          simp at h
        · rintro ⟨hall, hpw⟩
          exact absurd ⟨hpw, fun i _ => rfl⟩ (hdup ht)
      · intro h
        simp at h
      · intro _
        intro hpw
        exact hdup ht ⟨hpw, fun i _ => rfl⟩
  · intro hne1 hne2
    simp [HandleMessage, hne1, hne2]

/-- C6 witness: the characterization applied to a concrete session with a
total cast, showing the packet is answered (not a thrown cast error). -/
theorem C6_witness :
    ReadStatePacket castConstOne armC6w ["DeviceStates"] ≠ Except.error () := by
  obtain ⟨⟨reply, s', armed, heq, -, -, -⟩, -⟩ :=
    C6_packet_responses castConstOne armC6w ["DeviceStates"] (fun _ => rfl)
  rw [heq]
  intro h
  cases h

/-! ## Claim C7 -/

/-- C7 counterexample: a packet with the unknown header `"Garbage"` — a
malformed packet — still resets the heartbeat timer (twice: once at
reception, once after the `UnknownHeader` reply), contradicting the claim
that malformed packets never reset it. -/
theorem C7_counterexample :
    (HandleMessage castConstOne armC7 (some ["Garbage"]) true).heartbeats = 2 ∧
    (HandleMessage castConstOne armC7 (some ["Garbage"]) true).response =
      some "UnknownHeader\r\n\r\n" := by
  decide

/-- C7 (corrected): `Heartbeat()` is called immediately after `ReceiveData`,
before any parsing, so every successfully received packet — malformed or not
— resets the heartbeat timer at least once; only a failed reception performs
no reset.  A board that keeps sending malformed packets is therefore not
removed by heartbeat expiry. -/
theorem C7_heartbeat_reset_on_reception (cast : String → Option ℚ)
    (s : ArmState) (tokens : List String) (sendOk : Bool) :
    1 ≤ (HandleMessage cast s (some tokens) sendOk).heartbeats ∧
    (HandleMessage cast s none sendOk).heartbeats = 0 := by
  constructor
  · simp only [HandleMessage]
    repeat' split
    all_goals simp
  · rfl

/-! ## Claim C10 -/

/-- C10 (confirmed): a `DeviceStates` packet with zero device-state lines is
valid — `ReadStatePacket` replies `Received`, leaves the rx buffer untouched,
and on the session's first `DeviceStates` packet sets the initialized flag
and arms the 2-second command timer. -/
theorem C10_empty_packet_received (cast : String → Option ℚ) (s : ArmState)
    (h : s.initialized = false) :
    ReadStatePacket cast s ["DeviceStates"] =
      Except.ok ("Received\r\n\r\n", { s with initialized := true }, true) := by
  simp [ReadStatePacket, triples, readLoop, h]

/-- C10 witness: the empty `DeviceStates` packet on a concrete fresh
session. -/
theorem C10_witness :
    ReadStatePacket castConstOne armC10 ["DeviceStates"] =
      Except.ok ("Received\r\n\r\n", { armC10 with initialized := true }, true) :=
  C10_empty_packet_received castConstOne armC10 rfl

/-! ## Claims C8 and C9: clock-synchronizer invariants -/

/-- Reading an association map after a write, for the `String`-keyed
synchronizer maps. -/
theorem assocGet_assocSet {α : Type} (l : List (String × α)) (k k' : String)
    (v : α) :
    assocGet (assocSet l k v) k' = if k' = k then some v else assocGet l k' := by
  induction l with
  | nil => by_cases h : k' = k <;> simp [assocSet, assocGet, h]
  | cons hd tl ih =>
      obtain ⟨a, b⟩ := hd
      by_cases h1 : k = a
      · subst h1
        by_cases h2 : k' = k <;> simp [assocSet, assocGet, h2]
      · by_cases h2 : k' = a
        · subst h2
          have h3 : ¬ k' = k := fun h => h1 h.symm
          simp [assocSet, assocGet, h1, h3]
        · simp [assocSet, assocGet, h1, h2, ih]

/-- Removing one key leaves lookups of other keys unchanged. -/
theorem assocGet_assocRemove_ne {α : Type} (l : List (String × α))
    (k k' : String) (h : ¬ k' = k) :
    assocGet (assocRemove l k) k' = assocGet l k' := by
  induction l with
  | nil => rfl
  | cons hd tl ih =>
      obtain ⟨a, b⟩ := hd
      by_cases h1 : k = a
      · subst h1
        have h2 : ¬ k' = k := h
        simp [assocRemove, assocGet, h2]
      · by_cases h2 : k' = a <;> simp [assocRemove, assocGet, h1, h2, ih]

/-- A lookup surviving a fold of constant-value writes either hits one of the
written keys or was present before. -/
theorem assocGet_foldl_assocSet {α : Type} (ps : List String) (v : α) :
    ∀ (q0 : List (String × α)) (p : String) (r : α),
      assocGet (ps.foldl (fun q p' => assocSet q p' v) q0) p = some r →
      p ∈ ps ∨ assocGet q0 p = some r := by
  induction ps with
  | nil => intro q0 p r h; exact Or.inr h
  | cons a ps ih =>
      intro q0 p r h
      rcases ih (assocSet q0 a v) p r h with hmem | hget
      · exact Or.inl (List.mem_cons_of_mem _ hmem)
      · rw [assocGet_assocSet] at hget
        by_cases hpa : p = a
        · exact Or.inl (hpa ▸ List.mem_cons_self _ _)
        · rw [if_neg hpa] at hget
          exact Or.inr hget

/-- The response-list update keeps the history even and within the
`2 · MAX_REGRESSION_ENTRIES` cap. -/
theorem updateRlist_bound (l : List (ℚ × ℚ)) (a b c : ℚ)
    (h1 : l.length % 2 = 0) (h2 : l.length ≤ 2 * MAX_REGRESSION_ENTRIES) :
    (updateRlist l a b c).length % 2 = 0 ∧
    (updateRlist l a b c).length ≤ 2 * MAX_REGRESSION_ENTRIES := by
  simp only [updateRlist, MAX_REGRESSION_ENTRIES] at h2 ⊢
  split
  next h =>
    simp only [List.length_drop, List.length_append, List.length_cons,
      List.length_nil] at h ⊢
    omega
  next h =>
    simp only [List.length_append, List.length_cons, List.length_nil] at h ⊢
    omega

/-- One transitive-propagation step never touches the queries, responses, or
round counter, and never writes at the local node's own key. -/
theorem stepTableEntry_fields (sender : String) (s : CSState) (te : TableEntry) :
    (stepTableEntry sender s te).uuid = s.uuid ∧
    (stepTableEntry sender s te).queries = s.queries ∧
    (stepTableEntry sender s te).responses = s.responses ∧
    assocGet (stepTableEntry sender s te).offsets s.uuid =
      assocGet s.offsets s.uuid ∧
    assocGet (stepTableEntry sender s te).skews s.uuid =
      assocGet s.skews s.uuid ∧
    assocGet (stepTableEntry sender s te).weights s.uuid =
      assocGet s.weights s.uuid := by
  unfold stepTableEntry
  by_cases hskip : te.uuid = sender ∨ te.uuid = s.uuid
  · rw [if_pos hskip]
    exact ⟨rfl, rfl, rfl, rfl, rfl, rfl⟩
  · rw [if_neg hskip]
    push_neg at hskip
    have hne : ¬ s.uuid = te.uuid := fun h => hskip.2 h.symm
    rcases hoff : assocGet s.offsets te.uuid with _ | x <;>
      · simp only [SetWeight]
        split <;>
          simp [assocGet_assocSet, hne]

/-- The transitive-propagation fold inherits the per-step preservation. -/
theorem foldl_stepTableEntry_fields (sender : String) (table : List TableEntry) :
    ∀ s : CSState,
      (table.foldl (stepTableEntry sender) s).uuid = s.uuid ∧
      (table.foldl (stepTableEntry sender) s).queries = s.queries ∧
      (table.foldl (stepTableEntry sender) s).responses = s.responses ∧
      assocGet (table.foldl (stepTableEntry sender) s).offsets s.uuid =
        assocGet s.offsets s.uuid ∧
      assocGet (table.foldl (stepTableEntry sender) s).skews s.uuid =
        assocGet s.skews s.uuid ∧
      assocGet (table.foldl (stepTableEntry sender) s).weights s.uuid =
        assocGet s.weights s.uuid := by
  induction table with
  | nil => intro s; exact ⟨rfl, rfl, rfl, rfl, rfl, rfl⟩
  | cons te rest ih =>
      intro s
      obtain ⟨hu1, hq1, hr1, ho1, hk1, hw1⟩ := stepTableEntry_fields sender s te
      obtain ⟨hu2, hq2, hr2, ho2, hk2, hw2⟩ := ih (stepTableEntry sender s te)
      rw [hu1] at hu2 ho2 hk2 hw2
      refine ⟨hu2, ?_, ?_, ?_, ?_, ?_⟩
      · rw [List.foldl_cons, hq2, hq1]
      · rw [List.foldl_cons, hr2, hr1]
      · rw [List.foldl_cons, ho2, ho1]
      · rw [List.foldl_cons, hk2, hk1]
      · rw [List.foldl_cons, hw2, hw1]

/-- The fields of an `Exchange` round: the uuid and responses are untouched,
the queries are exactly the fold of per-peer writes over the non-self peers,
and the self pair ends pinned at offset 0, skew 0, stored weight 1. -/
theorem Exchange_fields (s : CSState) (peers : List String) (now : ℚ) :
    (Exchange s peers now).uuid = s.uuid ∧
    (Exchange s peers now).responses = s.responses ∧
    (Exchange s peers now).queries =
      (peers.filter (fun p => p != s.uuid)).foldl
        (fun q p => assocSet q p (s.kcounter, now)) s.queries ∧
    assocGet (Exchange s peers now).offsets s.uuid = some 0 ∧
    assocGet (Exchange s peers now).skews s.uuid = some 0 ∧
    assocGet (Exchange s peers now).weights s.uuid = some 1 := by
  refine ⟨rfl, rfl, rfl, ?_, ?_, ?_⟩ <;>
    simp [Exchange, SetWeight, assocGet_assocSet]

/-- The dropped-response paths of `HandleExchangeResponse` leave the state
unchanged: no outstanding query for the sender. -/
theorem HandleExchangeResponse_noquery (s : CSState) (sender : String) (k : ℕ)
    (resp now : ℚ) (table : List TableEntry)
    (hg : assocGet s.queries sender = none) :
    HandleExchangeResponse s sender k resp now table = s := by
  unfold HandleExchangeResponse
  rw [hg]

/-- The dropped-response paths of `HandleExchangeResponse` leave the state
unchanged: a sequence number that does not match. -/
theorem HandleExchangeResponse_stale (s : CSState) (sender : String) (k : ℕ)
    (resp now : ℚ) (table : List TableEntry) (q : ℕ × ℚ)
    (hg : assocGet s.queries sender = some q) (hkk : q.1 ≠ k) :
    HandleExchangeResponse s sender k resp now table = s := by
  unfold HandleExchangeResponse
  rw [hg]
  exact if_pos hkk

/-- The accepted path of `HandleExchangeResponse` is the transitive fold over
the committed accept state. -/
theorem HandleExchangeResponse_accepted (s : CSState) (sender : String) (k : ℕ)
    (resp now : ℚ) (table : List TableEntry) (q : ℕ × ℚ)
    (hg : assocGet s.queries sender = some q) (hkk : ¬ q.1 ≠ k) :
    HandleExchangeResponse s sender k resp now table =
      table.foldl (stepTableEntry sender) (acceptState s sender resp q.2 now) := by
  unfold HandleExchangeResponse
  rw [hg]
  exact if_neg hkk

/-- Reading the accept state at the local node's own key, which differs from
the sender's: the lookups are unchanged. -/
theorem acceptState_self (s : CSState) (sender : String) (resp challenge now : ℚ)
    (hns : ¬ s.uuid = sender) :
    (acceptState s sender resp challenge now).uuid = s.uuid ∧
    assocGet (acceptState s sender resp challenge now).offsets s.uuid =
      assocGet s.offsets s.uuid ∧
    assocGet (acceptState s sender resp challenge now).skews s.uuid =
      assocGet s.skews s.uuid ∧
    assocGet (acceptState s sender resp challenge now).weights s.uuid =
      assocGet s.weights s.uuid := by
  refine ⟨rfl, ?_, ?_, ?_⟩ <;>
    simp [acceptState, SetWeight, assocGet_assocSet, hns]

/-- The queries of the accept state are the old queries minus the sender. -/
theorem acceptState_queries (s : CSState) (sender : String)
    (resp challenge now : ℚ) :
    (acceptState s sender resp challenge now).queries =
      assocRemove s.queries sender := rfl

/-- The responses of the accept state append the two new samples for the
sender. -/
theorem acceptState_responses (s : CSState) (sender : String)
    (resp challenge now : ℚ) :
    (acceptState s sender resp challenge now).responses =
      assocSet s.responses sender
        (updateRlist ((assocGet s.responses sender).getD []) resp challenge now) :=
  rfl

/-- Core invariant of the clock synchronizer, by induction over reachable
states: every outstanding query is keyed by a remote uuid, and the self pair
is pinned at offset 0, skew 0, stored weight 1. -/
theorem csReach_core (s : CSState) (h : CSReach s) :
    (∀ p q, assocGet s.queries p = some q → p ≠ s.uuid) ∧
    assocGet s.offsets s.uuid = some 0 ∧
    assocGet s.skews s.uuid = some 0 ∧
    assocGet s.weights s.uuid = some 1 := by
  induction h with
  | init uuid =>
      refine ⟨?_, ?_, ?_, ?_⟩ <;> simp [initCS, assocGet]
  | exchange s peers now hs ih =>
      obtain ⟨hq, ho, hk, hw⟩ := ih
      obtain ⟨hu, -, hqq, ho', hk', hw'⟩ := Exchange_fields s peers now
      rw [hu, hqq]
      refine ⟨?_, ho', hk', hw'⟩
      intro p q hp
      rcases assocGet_foldl_assocSet _ _ _ _ _ hp with hmem | hget
      · have := (List.mem_filter.mp hmem).2
        simpa using this
      · exact hq p q hget
  | response s sender k resp now table hs ih =>
      obtain ⟨hq, ho, hk, hw⟩ := ih
      rcases hg : assocGet s.queries sender with _ | q
      · rw [HandleExchangeResponse_noquery s sender k resp now table hg]
        exact ⟨hq, ho, hk, hw⟩
      · by_cases hkk : q.1 ≠ k
        · rw [HandleExchangeResponse_stale s sender k resp now table q hg hkk]
          exact ⟨hq, ho, hk, hw⟩
        · rw [HandleExchangeResponse_accepted s sender k resp now table q hg hkk]
          have hsender : sender ≠ s.uuid := hq sender q hg
          have hnsu : ¬ s.uuid = sender := fun h => hsender h.symm
          obtain ⟨hau, hao, hak, haw⟩ := acceptState_self s sender resp q.2 now hnsu
          obtain ⟨hu2, hq2, -, ho2, hk2, hw2⟩ :=
            foldl_stepTableEntry_fields sender table (acceptState s sender resp q.2 now)
          rw [hau] at ho2 hk2 hw2
          rw [hao] at ho2
          rw [hak] at hk2
          rw [haw] at hw2
          rw [hu2, hau]
          refine ⟨?_, ho2.trans ho, hk2.trans hk, hw2.trans hw⟩
          intro p pq hp
          rw [hq2, acceptState_queries] at hp
          by_cases hps : p = sender
          · exact hps ▸ hsender
          · rw [assocGet_assocRemove_ne _ _ _ hps] at hp
            exact hq p pq hp

/-- Bounded/even response histories, by induction over reachable states. -/
theorem csReach_responses (s : CSState) (h : CSReach s) :
    ∀ p l, assocGet s.responses p = some l →
      l.length % 2 = 0 ∧ l.length ≤ 2 * MAX_REGRESSION_ENTRIES := by
  induction h with
  | init uuid =>
      intro p l hl
      simp [initCS, assocGet] at hl
  | exchange s peers now hs ih =>
      intro p l hl
      rw [(Exchange_fields s peers now).2.1] at hl
      exact ih p l hl
  | response s sender k resp now table hs ih =>
      intro p l hl
      rcases hg : assocGet s.queries sender with _ | q
      · rw [HandleExchangeResponse_noquery s sender k resp now table hg] at hl
        exact ih p l hl
      · by_cases hkk : q.1 ≠ k
        · rw [HandleExchangeResponse_stale s sender k resp now table q hg hkk] at hl
          exact ih p l hl
        · rw [HandleExchangeResponse_accepted s sender k resp now table q hg hkk,
            (foldl_stepTableEntry_fields sender table
              (acceptState s sender resp q.2 now)).2.2.1,
            acceptState_responses, assocGet_assocSet] at hl
          by_cases hps : p = sender
          · rw [if_pos hps] at hl
            rcases hprev : assocGet s.responses sender with _ | l0
            · rw [hprev] at hl
              simp only [Option.getD_none, Option.some.injEq] at hl
              rw [← hl]
              exact updateRlist_bound [] resp q.2 now (by simp) (by simp)
            · rw [hprev] at hl
              simp only [Option.getD_some, Option.some.injEq] at hl
              rw [← hl]
              obtain ⟨hb1, hb2⟩ := ih sender l0 hprev
              exact updateRlist_bound l0 resp q.2 now hb1 hb2
          · rw [if_neg hps] at hl
            exact ih p l hl

/-- C8 (confirmed): after construction and any sequence of Exchange rounds
and handled exchange responses, every recorded response history has even
length and at most `2 · MAX_REGRESSION_ENTRIES = 400` samples: each accepted
response appends exactly two samples and the two oldest samples are evicted
when the cap is exceeded. -/
theorem C8_response_history_bounded (s : CSState) (h : CSReach s) (p : String)
    (l : List (ℚ × ℚ)) (hl : assocGet s.responses p = some l) :
    l.length % 2 = 0 ∧ l.length ≤ 2 * MAX_REGRESSION_ENTRIES :=
  csReach_responses s h p l hl

/-- C8 witness: a two-step trace — one Exchange round to `"b"`, then the
matching response — leaves a history of exactly two samples. -/
theorem C8_witness :
    ([((3 : ℚ)/2, 0), ((3 : ℚ)/2, 2)] : List (ℚ × ℚ)).length % 2 = 0 ∧
    ([((3 : ℚ)/2, 0), ((3 : ℚ)/2, 2)] : List (ℚ × ℚ)).length ≤
      2 * MAX_REGRESSION_ENTRIES :=
  C8_response_history_bounded
    (HandleExchangeResponse (Exchange (initCS "a") ["b"] 0) "b" 0 (3/2) 2 [])
    (CSReach.response _ "b" 0 (3/2) 2 [] (CSReach.exchange _ ["b"] 0 (CSReach.init "a")))
    "b" [((3 : ℚ)/2, 0), ((3 : ℚ)/2, 2)] rfl

/-- C9 (confirmed): at every observable point — after construction, after
every Exchange round, and after every handled exchange response — the self
pair has offset 0, skew 0, and stored weight 1, and `GetWeight` returns 1 for
the self pair without applying any aging decay. -/
theorem C9_self_pair_invariant (s : CSState) (h : CSReach s) :
    assocGet s.offsets s.uuid = some 0 ∧
    assocGet s.skews s.uuid = some 0 ∧
    assocGet s.weights s.uuid = some 1 ∧
    GetWeight s s.uuid = 1 := by
  obtain ⟨-, ho, hk, hw⟩ := csReach_core s h
  exact ⟨ho, hk, hw, by simp [GetWeight]⟩

/-- C9 witness: the self-pair invariant evaluated on a concrete two-step
trace. -/
theorem C9_witness :
    assocGet (HandleExchangeResponse (Exchange (initCS "a") ["c"] 0)
      "c" 0 (3/2) 2 []).offsets "a" = some 0 ∧
    assocGet (HandleExchangeResponse (Exchange (initCS "a") ["c"] 0)
      "c" 0 (3/2) 2 []).skews "a" = some 0 ∧
    assocGet (HandleExchangeResponse (Exchange (initCS "a") ["c"] 0)
      "c" 0 (3/2) 2 []).weights "a" = some 1 ∧
    GetWeight (HandleExchangeResponse (Exchange (initCS "a") ["c"] 0)
      "c" 0 (3/2) 2 []) "a" = 1 :=
  C9_self_pair_invariant
    (HandleExchangeResponse (Exchange (initCS "a") ["c"] 0) "c" 0 (3/2) 2 [])
    (CSReach.response _ "c" 0 (3/2) 2 [] (CSReach.exchange _ ["c"] 0 (CSReach.init "a")))

end FreedmSpec
